import Mathlib

/-!
Verification of the forge-sdk-ts client library (src/src/index.ts,
src/src/types.ts, and the error classes) against its specification.

The TypeScript code is embedded shallowly: the builder's mutable fields
become a Lean structure with `Option` fields, each fluent setter becomes a
function `RenderRequestBuilder → … → RenderRequestBuilder`, `buildPayload`
becomes a pure function to a structural JSON model (`Option` = key absent),
and the network is abstracted by an explicit `FetchResult` describing what
the platform `fetch` did on a given call.

JavaScript numbers are modelled as `Rat`: the SDK only stores and forwards
them, never computes with them, so any dense numeric type is faithful.
-/

namespace Forge

/-- `OutputFormat` from types.ts: "pdf" | "png" | "jpeg" | "bmp" | "tga" | "qoi" | "svg". -/
inductive OutputFormat where
  | pdf | png | jpeg | bmp | tga | qoi | svg
deriving DecidableEq, Repr

/-- `Orientation` from types.ts: "portrait" | "landscape". -/
inductive Orientation where
  | portrait | landscape
deriving DecidableEq, Repr

/-- `Flow` from types.ts: "auto" | "paginate" | "continuous". -/
inductive Flow where
  | auto | paginate | continuous
deriving DecidableEq, Repr

/-- `DitherMethod` from types.ts: "none" | "floyd-steinberg" | "atkinson" | "ordered". -/
inductive DitherMethod where
  | none | floydSteinberg | atkinson | ordered
deriving DecidableEq, Repr

/-- `PalettePreset` from types.ts: "auto" | "bw" | "grayscale" | "eink". -/
inductive PalettePreset where
  | auto | bw | grayscale | eink
deriving DecidableEq, Repr

/-- `Palette` from types.ts: a preset name or an array of hex color strings. -/
inductive Palette where
  | preset (p : PalettePreset)
  | custom (colors : List String)
deriving DecidableEq, Repr

/-- `WatermarkLayer` from types.ts: "over" | "under". -/
inductive WatermarkLayer where
  | over | under
deriving DecidableEq, Repr

/-- `PdfStandard` enum from types.ts. -/
inductive PdfStandard where
  | none | a2b | a3b
deriving DecidableEq, Repr

/-- `EmbedRelationship` enum from types.ts. -/
inductive EmbedRelationship where
  | alternative | supplement | data | source | unspecified
deriving DecidableEq, Repr

/-- `BarcodeType` enum from types.ts. -/
inductive BarcodeType where
  | qr | code128 | ean13 | upca | code39
deriving DecidableEq, Repr

/-- `BarcodeAnchor` enum from types.ts. -/
inductive BarcodeAnchor where
  | topLeft | topRight | bottomLeft | bottomRight
deriving DecidableEq, Repr

/-- `PdfMode` from types.ts: "auto" | "vector" | "raster". -/
inductive PdfMode where
  | auto | vector | raster
deriving DecidableEq, Repr

/-- `AccessibilityLevel` from types.ts: "none" | "basic" | "pdf/ua-1". -/
inductive AccessibilityLevel where
  | none | basic | ua1
deriving DecidableEq, Repr

/-- JavaScript numbers, stored and forwarded only (no arithmetic in the SDK). -/
abbrev JsNumber := Rat

/-- `EmbeddedFilePayload` from types.ts. `Option` fields model optional JSON keys. -/
structure EmbeddedFilePayload where
  path : String
  data : String
  mime_type : Option String := Option.none
  description : Option String := Option.none
  relationship : Option EmbedRelationship := Option.none
deriving DecidableEq, Repr

/-- `BarcodePayload` from types.ts. -/
structure BarcodePayload where
  type : BarcodeType
  data : String
  x : Option JsNumber := Option.none
  y : Option JsNumber := Option.none
  width : Option JsNumber := Option.none
  height : Option JsNumber := Option.none
  anchor : Option BarcodeAnchor := Option.none
  foreground : Option String := Option.none
  background : Option String := Option.none
  draw_background : Option Bool := Option.none
  pages : Option String := Option.none
deriving DecidableEq, Repr

/-- The `quantize` group of `RenderPayload` from types.ts. -/
structure QuantizePayload where
  colors : Option JsNumber := Option.none
  palette : Option Palette := Option.none
  dither : Option DitherMethod := Option.none
deriving DecidableEq, Repr

/-- The `pdf.watermark` group of `RenderPayload` from types.ts. -/
structure WatermarkPayload where
  text : Option String := Option.none
  image_data : Option String := Option.none
  opacity : Option JsNumber := Option.none
  rotation : Option JsNumber := Option.none
  color : Option String := Option.none
  font_size : Option JsNumber := Option.none
  scale : Option JsNumber := Option.none
  layer : Option WatermarkLayer := Option.none
  pages : Option String := Option.none
deriving DecidableEq, Repr

/-- The `pdf.signature` group (`SignatureOptions`) from types.ts. -/
structure SignaturePayload where
  certificate_data : Option String := Option.none
  password : Option String := Option.none
  signer_name : Option String := Option.none
  reason : Option String := Option.none
  location : Option String := Option.none
  timestamp_url : Option String := Option.none
deriving DecidableEq, Repr

/-- The `pdf.encryption` group (`EncryptionOptions`) from types.ts. -/
structure EncryptionPayload where
  user_password : Option String := Option.none
  owner_password : Option String := Option.none
  permissions : Option String := Option.none
deriving DecidableEq, Repr

/-- The `pdf` group of `RenderPayload` from types.ts. -/
structure PdfPayload where
  title : Option String := Option.none
  author : Option String := Option.none
  subject : Option String := Option.none
  keywords : Option String := Option.none
  creator : Option String := Option.none
  bookmarks : Option Bool := Option.none
  page_numbers : Option Bool := Option.none
  standard : Option PdfStandard := Option.none
  embedded_files : Option (List EmbeddedFilePayload) := Option.none
  watermark : Option WatermarkPayload := Option.none
  barcodes : Option (List BarcodePayload) := Option.none
  mode : Option PdfMode := Option.none
  signature : Option SignaturePayload := Option.none
  encryption : Option EncryptionPayload := Option.none
  accessibility : Option AccessibilityLevel := Option.none
  linearize : Option Bool := Option.none
  document_lang : Option String := Option.none
deriving DecidableEq, Repr

/-- `RenderPayload` from types.ts: the JSON body POSTed to /render.
A field with value `Option.none` models a key absent from the serialized object. -/
structure RenderPayload where
  html : Option String := Option.none
  url : Option String := Option.none
  format : OutputFormat
  width : Option JsNumber := Option.none
  height : Option JsNumber := Option.none
  paper : Option String := Option.none
  orientation : Option Orientation := Option.none
  margins : Option String := Option.none
  flow : Option Flow := Option.none
  density : Option JsNumber := Option.none
  background : Option String := Option.none
  timeout : Option JsNumber := Option.none
  quantize : Option QuantizePayload := Option.none
  pdf : Option PdfPayload := Option.none
deriving DecidableEq, Repr

/-- `ForgeClient`: holds the normalized base URL and the request timeout in ms. -/
structure ForgeClient where
  baseUrl : String
  timeout : JsNumber
deriving DecidableEq, Repr

/-- `baseUrl.replace(/\/+$/, "")` from the ForgeClient constructor: the regex
removes the maximal run of trailing slash characters. -/
def stripTrailingSlashes (s : String) : String :=
  ⟨(s.data.reverse.dropWhile (· == '/')).reverse⟩

/-- The ForgeClient constructor: strips trailing slashes from the base URL and
defaults the timeout to 120000 ms (`options?.timeout ?? 120_000`). -/
def ForgeClient.make (baseUrl : String) (timeoutOpt : Option JsNumber) : ForgeClient :=
  { baseUrl := stripTrailingSlashes baseUrl
    timeout := timeoutOpt.getD 120000 }

/-- The URL string `doFetch` passes to the platform fetch:
`` fetch(`${this.baseUrl}${path}`, …) ``. -/
def ForgeClient.doFetchUrl (c : ForgeClient) (path : String) : String :=
  c.baseUrl ++ path

/-- The `source` argument of the RenderRequestBuilder constructor:
`{ html?: string; url?: string }`. -/
structure BuilderSource where
  html : Option String := Option.none
  url : Option String := Option.none
deriving DecidableEq, Repr

/-- `RenderRequestBuilder` state: one field per private member of the class.
`Option.none` models `undefined`; the two arrays start empty. -/
structure RenderRequestBuilder where
  client : ForgeClient
  _html : Option String
  _url : Option String
  _format : OutputFormat
  _width : Option JsNumber
  _height : Option JsNumber
  _paper : Option String
  _orientation : Option Orientation
  _margins : Option String
  _flow : Option Flow
  _density : Option JsNumber
  _background : Option String
  _timeout : Option JsNumber
  _colors : Option JsNumber
  _palette : Option Palette
  _dither : Option DitherMethod
  _pdfTitle : Option String
  _pdfAuthor : Option String
  _pdfSubject : Option String
  _pdfKeywords : Option String
  _pdfCreator : Option String
  _pdfBookmarks : Option Bool
  _pdfPageNumbers : Option Bool
  _pdfWatermarkText : Option String
  _pdfWatermarkImage : Option String
  _pdfWatermarkOpacity : Option JsNumber
  _pdfWatermarkRotation : Option JsNumber
  _pdfWatermarkColor : Option String
  _pdfWatermarkFontSize : Option JsNumber
  _pdfWatermarkScale : Option JsNumber
  _pdfWatermarkLayer : Option WatermarkLayer
  _pdfStandard : Option PdfStandard
  _pdfEmbeddedFiles : List EmbeddedFilePayload
  _pdfWatermarkPages : Option String
  _pdfBarcodes : List BarcodePayload
  _pdfMode : Option PdfMode
  _pdfSignCertificate : Option String
  _pdfSignPassword : Option String
  _pdfSignName : Option String
  _pdfSignReason : Option String
  _pdfSignLocation : Option String
  _pdfSignTimestampUrl : Option String
  _pdfUserPassword : Option String
  _pdfOwnerPassword : Option String
  _pdfPermissions : Option String
  _pdfAccessibility : Option AccessibilityLevel
  _pdfLinearize : Option Bool
  _pdfLang : Option String
deriving DecidableEq, Repr

/-- The RenderRequestBuilder constructor: stores the client and the source;
`_format` is initialized to "pdf" by its field initializer; every other
optional member is `undefined` and the two arrays are empty. -/
def RenderRequestBuilder.mkNew (client : ForgeClient) (source : BuilderSource) :
    RenderRequestBuilder :=
  { client
    _html := source.html
    _url := source.url
    _format := OutputFormat.pdf
    _width := Option.none
    _height := Option.none
    _paper := Option.none
    _orientation := Option.none
    _margins := Option.none
    _flow := Option.none
    _density := Option.none
    _background := Option.none
    _timeout := Option.none
    _colors := Option.none
    _palette := Option.none
    _dither := Option.none
    _pdfTitle := Option.none
    _pdfAuthor := Option.none
    _pdfSubject := Option.none
    _pdfKeywords := Option.none
    _pdfCreator := Option.none
    _pdfBookmarks := Option.none
    _pdfPageNumbers := Option.none
    _pdfWatermarkText := Option.none
    _pdfWatermarkImage := Option.none
    _pdfWatermarkOpacity := Option.none
    _pdfWatermarkRotation := Option.none
    _pdfWatermarkColor := Option.none
    _pdfWatermarkFontSize := Option.none
    _pdfWatermarkScale := Option.none
    _pdfWatermarkLayer := Option.none
    _pdfStandard := Option.none
    _pdfEmbeddedFiles := []
    _pdfWatermarkPages := Option.none
    _pdfBarcodes := []
    _pdfMode := Option.none
    _pdfSignCertificate := Option.none
    _pdfSignPassword := Option.none
    _pdfSignName := Option.none
    _pdfSignReason := Option.none
    _pdfSignLocation := Option.none
    _pdfSignTimestampUrl := Option.none
    _pdfUserPassword := Option.none
    _pdfOwnerPassword := Option.none
    _pdfPermissions := Option.none
    _pdfAccessibility := Option.none
    _pdfLinearize := Option.none
    _pdfLang := Option.none }

/-- `ForgeClient.renderHtml`: start a render request from an HTML string. -/
def ForgeClient.renderHtml (c : ForgeClient) (html : String) : RenderRequestBuilder :=
  RenderRequestBuilder.mkNew c { html := Option.some html }

/-- `ForgeClient.renderUrl`: start a render request from a URL. -/
def ForgeClient.renderUrl (c : ForgeClient) (url : String) : RenderRequestBuilder :=
  RenderRequestBuilder.mkNew c { url := Option.some url }

namespace RenderRequestBuilder

/-- Setter `format`. -/
def format (b : RenderRequestBuilder) (f : OutputFormat) : RenderRequestBuilder :=
  { b with _format := f }

/-- Setter `width`. -/
def width (b : RenderRequestBuilder) (px : JsNumber) : RenderRequestBuilder :=
  { b with _width := Option.some px }

/-- Setter `height`. -/
def height (b : RenderRequestBuilder) (px : JsNumber) : RenderRequestBuilder :=
  { b with _height := Option.some px }

/-- Setter `paper`. -/
def paper (b : RenderRequestBuilder) (size : String) : RenderRequestBuilder :=
  { b with _paper := Option.some size }

/-- Setter `orientation`. -/
def orientation (b : RenderRequestBuilder) (o : Orientation) : RenderRequestBuilder :=
  { b with _orientation := Option.some o }

/-- Setter `margins`. -/
def margins (b : RenderRequestBuilder) (m : String) : RenderRequestBuilder :=
  { b with _margins := Option.some m }

/-- Setter `flow`. -/
def flow (b : RenderRequestBuilder) (f : Flow) : RenderRequestBuilder :=
  { b with _flow := Option.some f }

/-- Setter `density`. -/
def density (b : RenderRequestBuilder) (dpi : JsNumber) : RenderRequestBuilder :=
  { b with _density := Option.some dpi }

/-- Setter `background`. -/
def background (b : RenderRequestBuilder) (color : String) : RenderRequestBuilder :=
  { b with _background := Option.some color }

/-- Setter `timeout` (page-load timeout in seconds). -/
def timeout (b : RenderRequestBuilder) (seconds : JsNumber) : RenderRequestBuilder :=
  { b with _timeout := Option.some seconds }

/-- Setter `colors`. -/
def colors (b : RenderRequestBuilder) (n : JsNumber) : RenderRequestBuilder :=
  { b with _colors := Option.some n }

/-- Setter `palette`. -/
def palette (b : RenderRequestBuilder) (p : Palette) : RenderRequestBuilder :=
  { b with _palette := Option.some p }

/-- Setter `dither`. -/
def dither (b : RenderRequestBuilder) (method : DitherMethod) : RenderRequestBuilder :=
  { b with _dither := Option.some method }

/-- Setter `pdfTitle`. -/
def pdfTitle (b : RenderRequestBuilder) (title : String) : RenderRequestBuilder :=
  { b with _pdfTitle := Option.some title }

/-- Setter `pdfAuthor`. -/
def pdfAuthor (b : RenderRequestBuilder) (author : String) : RenderRequestBuilder :=
  { b with _pdfAuthor := Option.some author }

/-- Setter `pdfSubject`. -/
def pdfSubject (b : RenderRequestBuilder) (subject : String) : RenderRequestBuilder :=
  { b with _pdfSubject := Option.some subject }

/-- Setter `pdfKeywords`. -/
def pdfKeywords (b : RenderRequestBuilder) (keywords : String) : RenderRequestBuilder :=
  { b with _pdfKeywords := Option.some keywords }

/-- Setter `pdfCreator`. -/
def pdfCreator (b : RenderRequestBuilder) (creator : String) : RenderRequestBuilder :=
  { b with _pdfCreator := Option.some creator }

/-- Setter `pdfBookmarks`. -/
def pdfBookmarks (b : RenderRequestBuilder) (enabled : Bool) : RenderRequestBuilder :=
  { b with _pdfBookmarks := Option.some enabled }

/-- Setter `pdfPageNumbers`. -/
def pdfPageNumbers (b : RenderRequestBuilder) (enabled : Bool) : RenderRequestBuilder :=
  { b with _pdfPageNumbers := Option.some enabled }

/-- Setter `pdfWatermarkText`. -/
def pdfWatermarkText (b : RenderRequestBuilder) (text : String) : RenderRequestBuilder :=
  { b with _pdfWatermarkText := Option.some text }

/-- Setter `pdfWatermarkImage`. -/
def pdfWatermarkImage (b : RenderRequestBuilder) (base64Data : String) : RenderRequestBuilder :=
  { b with _pdfWatermarkImage := Option.some base64Data }

/-- Setter `pdfWatermarkOpacity`. -/
def pdfWatermarkOpacity (b : RenderRequestBuilder) (opacity : JsNumber) : RenderRequestBuilder :=
  { b with _pdfWatermarkOpacity := Option.some opacity }

/-- Setter `pdfWatermarkRotation`. -/
def pdfWatermarkRotation (b : RenderRequestBuilder) (degrees : JsNumber) : RenderRequestBuilder :=
  { b with _pdfWatermarkRotation := Option.some degrees }

/-- Setter `pdfWatermarkColor`. -/
def pdfWatermarkColor (b : RenderRequestBuilder) (hex : String) : RenderRequestBuilder :=
  { b with _pdfWatermarkColor := Option.some hex }

/-- Setter `pdfWatermarkFontSize`. -/
def pdfWatermarkFontSize (b : RenderRequestBuilder) (size : JsNumber) : RenderRequestBuilder :=
  { b with _pdfWatermarkFontSize := Option.some size }

/-- Setter `pdfWatermarkScale`. -/
def pdfWatermarkScale (b : RenderRequestBuilder) (scale : JsNumber) : RenderRequestBuilder :=
  { b with _pdfWatermarkScale := Option.some scale }

/-- Setter `pdfWatermarkLayer`. -/
def pdfWatermarkLayer (b : RenderRequestBuilder) (layer : WatermarkLayer) : RenderRequestBuilder :=
  { b with _pdfWatermarkLayer := Option.some layer }

/-- Setter `pdfStandard`. -/
def pdfStandard (b : RenderRequestBuilder) (standard : PdfStandard) : RenderRequestBuilder :=
  { b with _pdfStandard := Option.some standard }

/-- Setter `pdfWatermarkPages`. -/
def pdfWatermarkPages (b : RenderRequestBuilder) (pages : String) : RenderRequestBuilder :=
  { b with _pdfWatermarkPages := Option.some pages }

/-- Setter `pdfMode`. -/
def pdfMode (b : RenderRequestBuilder) (mode : PdfMode) : RenderRequestBuilder :=
  { b with _pdfMode := Option.some mode }

/-- Setter `pdfSignCertificate`. -/
def pdfSignCertificate (b : RenderRequestBuilder) (base64Data : String) : RenderRequestBuilder :=
  { b with _pdfSignCertificate := Option.some base64Data }

/-- Setter `pdfSignPassword`. -/
def pdfSignPassword (b : RenderRequestBuilder) (password : String) : RenderRequestBuilder :=
  { b with _pdfSignPassword := Option.some password }

/-- Setter `pdfSignName`. -/
def pdfSignName (b : RenderRequestBuilder) (name : String) : RenderRequestBuilder :=
  { b with _pdfSignName := Option.some name }

/-- Setter `pdfSignReason`. -/
def pdfSignReason (b : RenderRequestBuilder) (reason : String) : RenderRequestBuilder :=
  { b with _pdfSignReason := Option.some reason }

/-- Setter `pdfSignLocation`. -/
def pdfSignLocation (b : RenderRequestBuilder) (location : String) : RenderRequestBuilder :=
  { b with _pdfSignLocation := Option.some location }

/-- Setter `pdfSignTimestampUrl`. -/
def pdfSignTimestampUrl (b : RenderRequestBuilder) (url : String) : RenderRequestBuilder :=
  { b with _pdfSignTimestampUrl := Option.some url }

/-- Setter `pdfUserPassword`. -/
def pdfUserPassword (b : RenderRequestBuilder) (password : String) : RenderRequestBuilder :=
  { b with _pdfUserPassword := Option.some password }

/-- Setter `pdfOwnerPassword`. -/
def pdfOwnerPassword (b : RenderRequestBuilder) (password : String) : RenderRequestBuilder :=
  { b with _pdfOwnerPassword := Option.some password }

/-- Setter `pdfPermissions`. -/
def pdfPermissions (b : RenderRequestBuilder) (permissions : String) : RenderRequestBuilder :=
  { b with _pdfPermissions := Option.some permissions }

/-- Setter `pdfAccessibility`. -/
def pdfAccessibility (b : RenderRequestBuilder) (level : AccessibilityLevel) : RenderRequestBuilder :=
  { b with _pdfAccessibility := Option.some level }

/-- Setter `pdfLinearize`. -/
def pdfLinearize (b : RenderRequestBuilder) (enabled : Bool) : RenderRequestBuilder :=
  { b with _pdfLinearize := Option.some enabled }

/-- Setter `pdfLang`. -/
def pdfLang (b : RenderRequestBuilder) (lang : String) : RenderRequestBuilder :=
  { b with _pdfLang := Option.some lang }

end RenderRequestBuilder

/-- The optional `options` argument of `pdfAttach`; a missing object is
all-`none`. -/
structure AttachOptions where
  mimeType : Option String := Option.none
  description : Option String := Option.none
  relationship : Option EmbedRelationship := Option.none
deriving DecidableEq, Repr

/-- The optional `opts` argument of `pdfBarcode`; a missing object is
all-`none`. -/
structure BarcodeOptions where
  x : Option JsNumber := Option.none
  y : Option JsNumber := Option.none
  width : Option JsNumber := Option.none
  height : Option JsNumber := Option.none
  anchor : Option BarcodeAnchor := Option.none
  foreground : Option String := Option.none
  background : Option String := Option.none
  drawBackground : Option Bool := Option.none
  pages : Option String := Option.none
deriving DecidableEq, Repr

/-- JavaScript truthiness of an optional string: `undefined` and `""` are
falsy, every other string is truthy. `if (x) y = x` keeps `x` exactly when
truthy. -/
def jsTruthyString (s : Option String) : Option String :=
  match s with
  | Option.some v => if v = "" then Option.none else Option.some v
  | Option.none => Option.none

/-- The embedded-file entry built by `pdfAttach`: `mime_type` and
`description` are copied under a truthiness check (`if (options?.mimeType)`),
so the empty string is dropped; `relationship` is an enum whose values are
all non-empty strings, so its truthiness check is just presence. -/
def mkAttachEntry (path data : String) (options : AttachOptions) : EmbeddedFilePayload :=
  { path
    data
    mime_type := jsTruthyString options.mimeType
    description := jsTruthyString options.description
    relationship := options.relationship }

/-- The barcode entry built by `pdfBarcode`: every optional field is copied
under an `!== undefined` check, which is exactly `Option` copying. -/
def mkBarcodeEntry (type : BarcodeType) (data : String) (opts : BarcodeOptions) :
    BarcodePayload :=
  { type
    data
    x := opts.x
    y := opts.y
    width := opts.width
    height := opts.height
    anchor := opts.anchor
    foreground := opts.foreground
    background := opts.background
    draw_background := opts.drawBackground
    pages := opts.pages }

namespace RenderRequestBuilder

/-- `pdfAttach`: builds an entry and pushes it onto `_pdfEmbeddedFiles`. -/
def pdfAttach (b : RenderRequestBuilder) (path data : String)
    (options : AttachOptions) : RenderRequestBuilder :=
  { b with _pdfEmbeddedFiles := b._pdfEmbeddedFiles ++ [mkAttachEntry path data options] }

/-- `pdfBarcode`: builds an entry and pushes it onto `_pdfBarcodes`. -/
def pdfBarcode (b : RenderRequestBuilder) (type : BarcodeType) (data : String)
    (opts : BarcodeOptions) : RenderRequestBuilder :=
  { b with _pdfBarcodes := b._pdfBarcodes ++ [mkBarcodeEntry type data opts] }

/-- `buildPayload`: the pure payload-construction step, translated clause by
clause from the source; each `if (this._x !== undefined) payload.x = …`
becomes a direct `Option` copy, and each conditional group becomes an
`if`-guarded `Option.some`. -/
def buildPayload (b : RenderRequestBuilder) : RenderPayload :=
  let hasQuantize : Bool :=
    b._colors.isSome || b._palette.isSome || b._dither.isSome
  let hasWatermark : Bool :=
    b._pdfWatermarkText.isSome ||
    b._pdfWatermarkImage.isSome ||
    b._pdfWatermarkOpacity.isSome ||
    b._pdfWatermarkRotation.isSome ||
    b._pdfWatermarkColor.isSome ||
    b._pdfWatermarkFontSize.isSome ||
    b._pdfWatermarkScale.isSome ||
    b._pdfWatermarkLayer.isSome ||
    b._pdfWatermarkPages.isSome
  let hasSignature : Bool :=
    b._pdfSignCertificate.isSome ||
    b._pdfSignPassword.isSome ||
    b._pdfSignName.isSome ||
    b._pdfSignReason.isSome ||
    b._pdfSignLocation.isSome ||
    b._pdfSignTimestampUrl.isSome
  let hasEncryption : Bool :=
    b._pdfUserPassword.isSome ||
    b._pdfOwnerPassword.isSome ||
    b._pdfPermissions.isSome
  let hasPdf : Bool :=
    b._pdfTitle.isSome ||
    b._pdfAuthor.isSome ||
    b._pdfSubject.isSome ||
    b._pdfKeywords.isSome ||
    b._pdfCreator.isSome ||
    b._pdfBookmarks.isSome ||
    b._pdfPageNumbers.isSome ||
    b._pdfStandard.isSome ||
    decide (b._pdfEmbeddedFiles.length > 0) ||
    decide (b._pdfBarcodes.length > 0) ||
    b._pdfMode.isSome ||
    b._pdfAccessibility.isSome ||
    b._pdfLinearize.isSome ||
    b._pdfLang.isSome ||
    hasWatermark || hasSignature || hasEncryption
  { format := b._format
    html := b._html
    url := b._url
    width := b._width
    height := b._height
    paper := b._paper
    orientation := b._orientation
    margins := b._margins
    flow := b._flow
    density := b._density
    background := b._background
    timeout := b._timeout
    quantize :=
      if hasQuantize then
        Option.some
          { colors := b._colors
            palette := b._palette
            dither := b._dither }
      else Option.none
    pdf :=
      if hasPdf then
        Option.some
          { title := b._pdfTitle
            author := b._pdfAuthor
            subject := b._pdfSubject
            keywords := b._pdfKeywords
            creator := b._pdfCreator
            bookmarks := b._pdfBookmarks
            page_numbers := b._pdfPageNumbers
            standard := b._pdfStandard
            embedded_files :=
              if b._pdfEmbeddedFiles.length > 0 then Option.some b._pdfEmbeddedFiles
              else Option.none
            watermark :=
              if hasWatermark then
                Option.some
                  { text := b._pdfWatermarkText
                    image_data := b._pdfWatermarkImage
                    opacity := b._pdfWatermarkOpacity
                    rotation := b._pdfWatermarkRotation
                    color := b._pdfWatermarkColor
                    font_size := b._pdfWatermarkFontSize
                    scale := b._pdfWatermarkScale
                    layer := b._pdfWatermarkLayer
                    pages := b._pdfWatermarkPages }
              else Option.none
            barcodes :=
              if b._pdfBarcodes.length > 0 then Option.some b._pdfBarcodes
              else Option.none
            mode := b._pdfMode
            signature :=
              if hasSignature then
                Option.some
                  { certificate_data := b._pdfSignCertificate
                    password := b._pdfSignPassword
                    signer_name := b._pdfSignName
                    reason := b._pdfSignReason
                    location := b._pdfSignLocation
                    timestamp_url := b._pdfSignTimestampUrl }
              else Option.none
            encryption :=
              if hasEncryption then
                Option.some
                  { user_password := b._pdfUserPassword
                    owner_password := b._pdfOwnerPassword
                    permissions := b._pdfPermissions }
              else Option.none
            accessibility := b._pdfAccessibility
            linearize := b._pdfLinearize
            document_lang := b._pdfLang }
      else Option.none }

/-- `buildPayload` as a method call in state-passing style: the source method
reads `this` but contains no assignment to any `this.*` member, so the
receiver after the call is the receiver before it. -/
def buildPayloadCall (b : RenderRequestBuilder) :
    RenderPayload × RenderRequestBuilder :=
  (b.buildPayload, b)

end RenderRequestBuilder

/-- The outcome of awaiting `resp.arrayBuffer()`: the body's bytes, or a
rejection (e.g. the connection dropping mid-body) carrying the thrown value. -/
inductive ReadResult where
  | bytes (buf : List Nat)
  | threw (cause : String)
deriving DecidableEq, Repr

/-- A resolved HTTP response, as the SDK observes it: the status code, the
outcome of `resp.json()` on the body (`Option.none` = parsing threw;
`Option.some e` = parsed, with `e` the `error` member, absent when the parsed
object has no string `error` key), and the outcome of `resp.arrayBuffer()`
(which may itself reject, e.g. if the connection drops mid-body). -/
structure MockResponse where
  status : Nat
  errorBody : Option (Option String)
  bodyResult : ReadResult
deriving DecidableEq, Repr

/-- What the platform `fetch` did on one call: either the returned promise
rejected (DNS failure, refused connection, abort on timeout — the `cause`
is the thrown value rendered as a string), or it resolved to a response. -/
inductive FetchResult where
  | err (cause : String)
  | resp (r : MockResponse)
deriving DecidableEq, Repr

/-- `resp.ok` per the fetch standard: status in the range 200–299. -/
def MockResponse.ok (r : MockResponse) : Bool :=
  200 ≤ r.status && r.status ≤ 299

/-- The possible outcomes of one `send()` call: the resolved bytes, one of
the two typed failures (`ForgeConnectionError`, `ForgeServerError`), or an
exception that `send` lets propagate without wrapping. A `ForgeServerError`
carries the numeric status and the resolved message (`Option.none` models a
JS `undefined` message). -/
inductive SendOutcome where
  | success (bytes : List Nat)
  | connectionError (cause : String)
  | serverError (status : Nat) (message : Option String)
  | unhandledError (cause : String)
deriving DecidableEq, Repr

/-- `true` exactly on the two typed failures of the SDK's error taxonomy. -/
def SendOutcome.isTypedFailure : SendOutcome → Bool
  | SendOutcome.connectionError _ => true
  | SendOutcome.serverError _ _ => true
  | _ => false

/-- `true` on every outcome other than successful resolution. -/
def SendOutcome.isFailure : SendOutcome → Bool
  | SendOutcome.success _ => false
  | _ => true

/-- `send()`, translated clause by clause. `net` gives the platform fetch's
behavior as a function of the POSTed payload. A rejected fetch is caught and
rethrown as `ForgeConnectionError`; on a non-ok status, `resp.json()` is
tried and its failure caught (falling back to `"HTTP " + status`), and a
`ForgeServerError` is thrown; otherwise `resp.arrayBuffer()` is awaited
outside any try/catch, so its rejection propagates unwrapped. -/
def RenderRequestBuilder.send (b : RenderRequestBuilder)
    (net : RenderPayload → FetchResult) : SendOutcome :=
  let payload := b.buildPayload
  match net payload with
  | FetchResult.err cause => SendOutcome.connectionError cause
  | FetchResult.resp resp =>
    if !resp.ok then
      let message : Option String :=
        match resp.errorBody with
        | Option.some body => body
        | Option.none => Option.some ("HTTP " ++ toString resp.status)
      SendOutcome.serverError resp.status message
    else
      match resp.bodyResult with
      | ReadResult.threw cause => SendOutcome.unhandledError cause
      | ReadResult.bytes buf => SendOutcome.success buf

/-- `health()`: a GET to /health inside try/catch; returns `resp.ok` when
fetch resolves and `false` when anything throws. -/
def ForgeClient.health (_c : ForgeClient) (net : FetchResult) : Bool :=
  match net with
  | FetchResult.err _ => false
  | FetchResult.resp r => r.ok

/-- One call to a public builder method, with its arguments; used to reason
about arbitrary fluent call sequences. -/
inductive BuilderCall where
  | format (f : OutputFormat)
  | width (px : JsNumber)
  | height (px : JsNumber)
  | paper (size : String)
  | orientation (o : Orientation)
  | margins (m : String)
  | flow (f : Flow)
  | density (dpi : JsNumber)
  | background (color : String)
  | timeout (seconds : JsNumber)
  | colors (n : JsNumber)
  | palette (p : Palette)
  | dither (method : DitherMethod)
  | pdfTitle (s : String)
  | pdfAuthor (s : String)
  | pdfSubject (s : String)
  | pdfKeywords (s : String)
  | pdfCreator (s : String)
  | pdfBookmarks (b : Bool)
  | pdfPageNumbers (b : Bool)
  | pdfWatermarkText (s : String)
  | pdfWatermarkImage (s : String)
  | pdfWatermarkOpacity (r : JsNumber)
  | pdfWatermarkRotation (r : JsNumber)
  | pdfWatermarkColor (s : String)
  | pdfWatermarkFontSize (r : JsNumber)
  | pdfWatermarkScale (r : JsNumber)
  | pdfWatermarkLayer (l : WatermarkLayer)
  | pdfStandard (s : PdfStandard)
  | pdfAttach (path data : String) (options : AttachOptions)
  | pdfWatermarkPages (s : String)
  | pdfBarcode (t : BarcodeType) (d : String) (opts : BarcodeOptions)
  | pdfMode (m : PdfMode)
  | pdfSignCertificate (s : String)
  | pdfSignPassword (s : String)
  | pdfSignName (s : String)
  | pdfSignReason (s : String)
  | pdfSignLocation (s : String)
  | pdfSignTimestampUrl (s : String)
  | pdfUserPassword (s : String)
  | pdfOwnerPassword (s : String)
  | pdfPermissions (s : String)
  | pdfAccessibility (l : AccessibilityLevel)
  | pdfLinearize (b : Bool)
  | pdfLang (s : String)
deriving DecidableEq, Repr

/-- Dispatch one recorded call to the corresponding setter. -/
def applyCall (b : RenderRequestBuilder) : BuilderCall → RenderRequestBuilder
  | BuilderCall.format f => b.format f
  | BuilderCall.width px => b.width px
  | BuilderCall.height px => b.height px
  | BuilderCall.paper size => b.paper size
  | BuilderCall.orientation o => b.orientation o
  | BuilderCall.margins m => b.margins m
  | BuilderCall.flow f => b.flow f
  | BuilderCall.density dpi => b.density dpi
  | BuilderCall.background color => b.background color
  | BuilderCall.timeout seconds => b.timeout seconds
  | BuilderCall.colors n => b.colors n
  | BuilderCall.palette p => b.palette p
  | BuilderCall.dither m => b.dither m
  | BuilderCall.pdfTitle s => b.pdfTitle s
  | BuilderCall.pdfAuthor s => b.pdfAuthor s
  | BuilderCall.pdfSubject s => b.pdfSubject s
  | BuilderCall.pdfKeywords s => b.pdfKeywords s
  | BuilderCall.pdfCreator s => b.pdfCreator s
  | BuilderCall.pdfBookmarks v => b.pdfBookmarks v
  | BuilderCall.pdfPageNumbers v => b.pdfPageNumbers v
  | BuilderCall.pdfWatermarkText s => b.pdfWatermarkText s
  | BuilderCall.pdfWatermarkImage s => b.pdfWatermarkImage s
  | BuilderCall.pdfWatermarkOpacity r => b.pdfWatermarkOpacity r
  | BuilderCall.pdfWatermarkRotation r => b.pdfWatermarkRotation r
  | BuilderCall.pdfWatermarkColor s => b.pdfWatermarkColor s
  | BuilderCall.pdfWatermarkFontSize r => b.pdfWatermarkFontSize r
  | BuilderCall.pdfWatermarkScale r => b.pdfWatermarkScale r
  | BuilderCall.pdfWatermarkLayer l => b.pdfWatermarkLayer l
  | BuilderCall.pdfStandard s => b.pdfStandard s
  | BuilderCall.pdfAttach path data options => b.pdfAttach path data options
  | BuilderCall.pdfWatermarkPages s => b.pdfWatermarkPages s
  | BuilderCall.pdfBarcode t d opts => b.pdfBarcode t d opts
  | BuilderCall.pdfMode m => b.pdfMode m
  | BuilderCall.pdfSignCertificate s => b.pdfSignCertificate s
  | BuilderCall.pdfSignPassword s => b.pdfSignPassword s
  | BuilderCall.pdfSignName s => b.pdfSignName s
  | BuilderCall.pdfSignReason s => b.pdfSignReason s
  | BuilderCall.pdfSignLocation s => b.pdfSignLocation s
  | BuilderCall.pdfSignTimestampUrl s => b.pdfSignTimestampUrl s
  | BuilderCall.pdfUserPassword s => b.pdfUserPassword s
  | BuilderCall.pdfOwnerPassword s => b.pdfOwnerPassword s
  | BuilderCall.pdfPermissions s => b.pdfPermissions s
  | BuilderCall.pdfAccessibility l => b.pdfAccessibility l
  | BuilderCall.pdfLinearize v => b.pdfLinearize v
  | BuilderCall.pdfLang s => b.pdfLang s

/-- Apply a fluent call chain, left to right. -/
def applyCalls (b : RenderRequestBuilder) (cs : List BuilderCall) : RenderRequestBuilder :=
  cs.foldl applyCall b

/-- The argument of the last `format(…)` call in a chain, if any. -/
def lastFormatArg : List BuilderCall → Option OutputFormat
  | [] => Option.none
  | c :: cs =>
    match lastFormatArg cs with
    | Option.some f => Option.some f
    | Option.none =>
      match c with
      | BuilderCall.format f => Option.some f
      | _ => Option.none

/-- The barcode entries a chain adds, in call order. -/
def barcodeCallEntries : List BuilderCall → List BarcodePayload
  | [] => []
  | BuilderCall.pdfBarcode t d opts :: cs => mkBarcodeEntry t d opts :: barcodeCallEntries cs
  | _ :: cs => barcodeCallEntries cs

/-- The embedded-file entries a chain adds, in call order. -/
def attachCallEntries : List BuilderCall → List EmbeddedFilePayload
  | [] => []
  | BuilderCall.pdfAttach path data options :: cs =>
    mkAttachEntry path data options :: attachCallEntries cs
  | _ :: cs => attachCallEntries cs

/-- The number of `pdfBarcode` calls in a chain. -/
def countBarcodeCalls : List BuilderCall → Nat
  | [] => 0
  | BuilderCall.pdfBarcode _ _ _ :: cs => countBarcodeCalls cs + 1
  | _ :: cs => countBarcodeCalls cs

/-- The number of `pdfAttach` calls in a chain. -/
def countAttachCalls : List BuilderCall → Nat
  | [] => 0
  | BuilderCall.pdfAttach _ _ _ :: cs => countAttachCalls cs + 1
  | _ :: cs => countAttachCalls cs

/-- `true` exactly on `ForgeConnectionError` outcomes. -/
def SendOutcome.isConnectionError : SendOutcome → Bool
  | SendOutcome.connectionError _ => true
  | _ => false

/-- `true` exactly on `ForgeServerError` outcomes. -/
def SendOutcome.isServerError : SendOutcome → Bool
  | SendOutcome.serverError _ _ => true
  | _ => false

/-- "At least one member of the quantization group was set": `colors`,
`palette`, or `dither`. -/
def hasQuantizeState (b : RenderRequestBuilder) : Bool :=
  b._colors.isSome || b._palette.isSome || b._dither.isSome

/-- "At least one member of the watermark group was set". -/
def hasWatermarkState (b : RenderRequestBuilder) : Bool :=
  b._pdfWatermarkText.isSome ||
  b._pdfWatermarkImage.isSome ||
  b._pdfWatermarkOpacity.isSome ||
  b._pdfWatermarkRotation.isSome ||
  b._pdfWatermarkColor.isSome ||
  b._pdfWatermarkFontSize.isSome ||
  b._pdfWatermarkScale.isSome ||
  b._pdfWatermarkLayer.isSome ||
  b._pdfWatermarkPages.isSome

/-- "At least one member of the signature group was set". -/
def hasSignatureState (b : RenderRequestBuilder) : Bool :=
  b._pdfSignCertificate.isSome ||
  b._pdfSignPassword.isSome ||
  b._pdfSignName.isSome ||
  b._pdfSignReason.isSome ||
  b._pdfSignLocation.isSome ||
  b._pdfSignTimestampUrl.isSome

/-- "At least one member of the encryption group was set". -/
def hasEncryptionState (b : RenderRequestBuilder) : Bool :=
  b._pdfUserPassword.isSome ||
  b._pdfOwnerPassword.isSome ||
  b._pdfPermissions.isSome

/-- "At least one member of the PDF group was set": any scalar PDF option, a
non-empty embedded-file or barcode array, or any member of a nested group. -/
def hasPdfState (b : RenderRequestBuilder) : Bool :=
  b._pdfTitle.isSome ||
  b._pdfAuthor.isSome ||
  b._pdfSubject.isSome ||
  b._pdfKeywords.isSome ||
  b._pdfCreator.isSome ||
  b._pdfBookmarks.isSome ||
  b._pdfPageNumbers.isSome ||
  b._pdfStandard.isSome ||
  decide (b._pdfEmbeddedFiles.length > 0) ||
  decide (b._pdfBarcodes.length > 0) ||
  b._pdfMode.isSome ||
  b._pdfAccessibility.isSome ||
  b._pdfLinearize.isSome ||
  b._pdfLang.isSome ||
  hasWatermarkState b || hasSignatureState b || hasEncryptionState b

/-- The quantize object `buildPayload` emits when the group is present. -/
def quantizeGroupOf (b : RenderRequestBuilder) : QuantizePayload :=
  { colors := b._colors
    palette := b._palette
    dither := b._dither }

/-- The watermark object `buildPayload` emits when the group is present. -/
def watermarkGroupOf (b : RenderRequestBuilder) : WatermarkPayload :=
  { text := b._pdfWatermarkText
    image_data := b._pdfWatermarkImage
    opacity := b._pdfWatermarkOpacity
    rotation := b._pdfWatermarkRotation
    color := b._pdfWatermarkColor
    font_size := b._pdfWatermarkFontSize
    scale := b._pdfWatermarkScale
    layer := b._pdfWatermarkLayer
    pages := b._pdfWatermarkPages }

/-- The signature object `buildPayload` emits when the group is present. -/
def signatureGroupOf (b : RenderRequestBuilder) : SignaturePayload :=
  { certificate_data := b._pdfSignCertificate
    password := b._pdfSignPassword
    signer_name := b._pdfSignName
    reason := b._pdfSignReason
    location := b._pdfSignLocation
    timestamp_url := b._pdfSignTimestampUrl }

/-- The encryption object `buildPayload` emits when the group is present. -/
def encryptionGroupOf (b : RenderRequestBuilder) : EncryptionPayload :=
  { user_password := b._pdfUserPassword
    owner_password := b._pdfOwnerPassword
    permissions := b._pdfPermissions }

/-- The pdf object `buildPayload` emits when the group is present. -/
def pdfGroupOf (b : RenderRequestBuilder) : PdfPayload :=
  { title := b._pdfTitle
    author := b._pdfAuthor
    subject := b._pdfSubject
    keywords := b._pdfKeywords
    creator := b._pdfCreator
    bookmarks := b._pdfBookmarks
    page_numbers := b._pdfPageNumbers
    standard := b._pdfStandard
    embedded_files :=
      if b._pdfEmbeddedFiles.length > 0 then Option.some b._pdfEmbeddedFiles
      else Option.none
    watermark :=
      if hasWatermarkState b then Option.some (watermarkGroupOf b) else Option.none
    barcodes :=
      if b._pdfBarcodes.length > 0 then Option.some b._pdfBarcodes
      else Option.none
    mode := b._pdfMode
    signature :=
      if hasSignatureState b then Option.some (signatureGroupOf b) else Option.none
    encryption :=
      if hasEncryptionState b then Option.some (encryptionGroupOf b) else Option.none
    accessibility := b._pdfAccessibility
    linearize := b._pdfLinearize
    document_lang := b._pdfLang }

/-- A quantize object with at least one key. -/
def QuantizePayload.nonEmptyObj (q : QuantizePayload) : Bool :=
  q.colors.isSome || q.palette.isSome || q.dither.isSome

/-- A watermark object with at least one key. -/
def WatermarkPayload.nonEmptyObj (w : WatermarkPayload) : Bool :=
  w.text.isSome || w.image_data.isSome || w.opacity.isSome || w.rotation.isSome ||
  w.color.isSome || w.font_size.isSome || w.scale.isSome || w.layer.isSome ||
  w.pages.isSome

/-- A signature object with at least one key. -/
def SignaturePayload.nonEmptyObj (s : SignaturePayload) : Bool :=
  s.certificate_data.isSome || s.password.isSome || s.signer_name.isSome ||
  s.reason.isSome || s.location.isSome || s.timestamp_url.isSome

/-- An encryption object with at least one key. -/
def EncryptionPayload.nonEmptyObj (e : EncryptionPayload) : Bool :=
  e.user_password.isSome || e.owner_password.isSome || e.permissions.isSome

/-- A pdf object with at least one key (disjuncts listed in the order the
source checks its members). -/
def PdfPayload.nonEmptyObj (p : PdfPayload) : Bool :=
  p.title.isSome || p.author.isSome || p.subject.isSome || p.keywords.isSome ||
  p.creator.isSome || p.bookmarks.isSome || p.page_numbers.isSome ||
  p.standard.isSome || p.embedded_files.isSome || p.barcodes.isSome ||
  p.mode.isSome || p.accessibility.isSome || p.linearize.isSome ||
  p.document_lang.isSome || p.watermark.isSome || p.signature.isSome ||
  p.encryption.isSome

/-- A client at the default local address, for concrete instances. -/
def mockClient : ForgeClient :=
  ForgeClient.make "http://localhost:3000" Option.none

/-- A concrete builder started from HTML, for concrete instances. -/
def mockBuilder : RenderRequestBuilder :=
  mockClient.renderHtml "<h1>Hi</h1>"

/-- A network where the fetch promise always rejects (refused connection). -/
def netRefused : RenderPayload → FetchResult :=
  fun _ => FetchResult.err "ECONNREFUSED"

/-- A server answering 500 with the parseable body `{"error":"boom"}`. -/
def net500boom : RenderPayload → FetchResult :=
  fun _ => FetchResult.resp
    { status := 500
      errorBody := Option.some (Option.some "boom")
      bodyResult := ReadResult.bytes [] }

/-- A server answering 500 with a body `resp.json()` cannot parse. -/
def net500garbled : RenderPayload → FetchResult :=
  fun _ => FetchResult.resp
    { status := 500
      errorBody := Option.none
      bodyResult := ReadResult.bytes [] }

/-- A server answering 200 whose body stream fails while being read:
`resp.arrayBuffer()` rejects. -/
def netBodyDrop : RenderPayload → FetchResult :=
  fun _ => FetchResult.resp
    { status := 200
      errorBody := Option.none
      bodyResult := ReadResult.threw "stream reset" }

/- Bridge lemmas relating `buildPayload` to the group predicates. -/

theorem buildPayload_format (b : RenderRequestBuilder) :
    (b.buildPayload).format = b._format := rfl

theorem buildPayload_quantize (b : RenderRequestBuilder) :
    (b.buildPayload).quantize =
      if hasQuantizeState b then Option.some (quantizeGroupOf b) else Option.none := rfl

theorem buildPayload_pdf (b : RenderRequestBuilder) :
    (b.buildPayload).pdf =
      if hasPdfState b then Option.some (pdfGroupOf b) else Option.none := rfl

theorem isSome_ite_some {α : Type _} (c : Prop) [Decidable c] (x : α) :
    (if c then Option.some x else Option.none).isSome = decide c := by
  by_cases h : c <;> simp [h]

theorem isSome_ite_some_bool {α : Type _} (c : Bool) (x : α) :
    (if c then Option.some x else Option.none).isSome = c := by
  cases c <;> simp

theorem quantizeGroupOf_nonEmptyObj (b : RenderRequestBuilder) :
    (quantizeGroupOf b).nonEmptyObj = hasQuantizeState b := rfl

theorem watermarkGroupOf_nonEmptyObj (b : RenderRequestBuilder) :
    (watermarkGroupOf b).nonEmptyObj = hasWatermarkState b := rfl

theorem signatureGroupOf_nonEmptyObj (b : RenderRequestBuilder) :
    (signatureGroupOf b).nonEmptyObj = hasSignatureState b := rfl

theorem encryptionGroupOf_nonEmptyObj (b : RenderRequestBuilder) :
    (encryptionGroupOf b).nonEmptyObj = hasEncryptionState b := rfl

theorem pdfGroupOf_nonEmptyObj (b : RenderRequestBuilder) :
    (pdfGroupOf b).nonEmptyObj = hasPdfState b := by
  simp only [pdfGroupOf, PdfPayload.nonEmptyObj, hasPdfState,
    isSome_ite_some, isSome_ite_some_bool, Bool.decide_coe]

theorem hasPdfState_of_watermark (b : RenderRequestBuilder)
    (h : hasWatermarkState b = true) : hasPdfState b = true := by
  simp [hasPdfState, h]

theorem hasPdfState_of_signature (b : RenderRequestBuilder)
    (h : hasSignatureState b = true) : hasPdfState b = true := by
  simp [hasPdfState, h]

theorem hasPdfState_of_encryption (b : RenderRequestBuilder)
    (h : hasEncryptionState b = true) : hasPdfState b = true := by
  simp [hasPdfState, h]

/-- C1: for every builder state, `buildPayload()` emits each optional group
(quantize; pdf; and the nested watermark, signature and encryption groups,
each independently) iff at least one member field of that group was set, and
every emitted group object has at least one key (no empty objects). -/
theorem buildPayload_groups_present_iff_member_set :
    ∀ b : RenderRequestBuilder,
      ((b.buildPayload).quantize.isSome = hasQuantizeState b) ∧
      ((b.buildPayload).pdf.isSome = hasPdfState b) ∧
      (((b.buildPayload).pdf.bind PdfPayload.watermark).isSome = hasWatermarkState b) ∧
      (((b.buildPayload).pdf.bind PdfPayload.signature).isSome = hasSignatureState b) ∧
      (((b.buildPayload).pdf.bind PdfPayload.encryption).isSome = hasEncryptionState b) ∧
      ((b.buildPayload).quantize.all QuantizePayload.nonEmptyObj = true) ∧
      ((b.buildPayload).pdf.all PdfPayload.nonEmptyObj = true) ∧
      (((b.buildPayload).pdf.bind PdfPayload.watermark).all WatermarkPayload.nonEmptyObj = true) ∧
      (((b.buildPayload).pdf.bind PdfPayload.signature).all SignaturePayload.nonEmptyObj = true) ∧
      (((b.buildPayload).pdf.bind PdfPayload.encryption).all EncryptionPayload.nonEmptyObj = true) := by
  intro b
  refine ⟨?_, ?_, ?_, ?_, ?_, ?_, ?_, ?_, ?_, ?_⟩
  · rw [buildPayload_quantize]
    cases h : hasQuantizeState b <;> simp [h]
  · rw [buildPayload_pdf]
    cases h : hasPdfState b <;> simp [h]
  · rw [buildPayload_pdf]
    cases hw : hasWatermarkState b
    · cases h : hasPdfState b <;> simp [h, pdfGroupOf, hw]
    · simp [hasPdfState_of_watermark b hw, pdfGroupOf, hw]
  · rw [buildPayload_pdf]
    cases hs : hasSignatureState b
    · cases h : hasPdfState b <;> simp [h, pdfGroupOf, hs]
    · simp [hasPdfState_of_signature b hs, pdfGroupOf, hs]
  · rw [buildPayload_pdf]
    cases he : hasEncryptionState b
    · cases h : hasPdfState b <;> simp [h, pdfGroupOf, he]
    · simp [hasPdfState_of_encryption b he, pdfGroupOf, he]
  · rw [buildPayload_quantize]
    cases h : hasQuantizeState b <;>
      simp [h, quantizeGroupOf_nonEmptyObj]
  · rw [buildPayload_pdf]
    cases h : hasPdfState b <;> simp [h, pdfGroupOf_nonEmptyObj]
  · rw [buildPayload_pdf]
    cases hw : hasWatermarkState b
    · cases h : hasPdfState b <;> simp [h, pdfGroupOf, hw]
    · simp [hasPdfState_of_watermark b hw, pdfGroupOf, hw,
        watermarkGroupOf_nonEmptyObj]
  · rw [buildPayload_pdf]
    cases hs : hasSignatureState b
    · cases h : hasPdfState b <;> simp [h, pdfGroupOf, hs]
    · simp [hasPdfState_of_signature b hs, pdfGroupOf, hs,
        signatureGroupOf_nonEmptyObj]
  · rw [buildPayload_pdf]
    cases he : hasEncryptionState b
    · cases h : hasPdfState b <;> simp [h, pdfGroupOf, he]
    · simp [hasPdfState_of_encryption b he, pdfGroupOf, he,
        encryptionGroupOf_nonEmptyObj]

/-- C4: a builder from `renderHtml(s)` yields a payload with `html = s` and
no `url` key, symmetrically for `renderUrl(u)`; and
`renderHtml("<h1>Hi</h1>").buildPayload()` is exactly
`{html:"<h1>Hi</h1>", format:"pdf"}` with every other key absent. -/
theorem renderHtml_renderUrl_payload_source :
    (∀ (c : ForgeClient) (s : String),
        ((c.renderHtml s).buildPayload).html = Option.some s ∧
        ((c.renderHtml s).buildPayload).url = Option.none) ∧
    (∀ (c : ForgeClient) (u : String),
        ((c.renderUrl u).buildPayload).url = Option.some u ∧
        ((c.renderUrl u).buildPayload).html = Option.none) ∧
    (mockBuilder.buildPayload =
      { format := OutputFormat.pdf, html := Option.some "<h1>Hi</h1>" }) :=
  ⟨fun _ _ => ⟨rfl, rfl⟩, fun _ _ => ⟨rfl, rfl⟩, rfl⟩

/-- C9: `buildPayload` in state-passing style leaves the builder state
unchanged, and a repeated call on the resulting state returns an equal
payload (pure, deterministic, side-effect-free). -/
theorem buildPayload_pure_and_idempotent :
    ∀ b : RenderRequestBuilder,
      (b.buildPayloadCall.2 = b) ∧
      ((b.buildPayloadCall.2).buildPayloadCall.1 = b.buildPayloadCall.1) :=
  fun _ => ⟨rfl, rfl⟩

/-- C7: `health()` returns a boolean and never raises: `resp.ok` — i.e.
status in 200–299 — when fetch resolves, `false` when it throws; a refused
connection and a 503 response are indistinguishable in the result. -/
theorem health_collapses_failures :
    (∀ (c : ForgeClient) (cause : String),
        c.health (FetchResult.err cause) = false) ∧
    (∀ (c : ForgeClient) (r : MockResponse),
        c.health (FetchResult.resp r) = r.ok) ∧
    (∀ (c : ForgeClient) (eb : Option (Option String)) (br : ReadResult),
        c.health (FetchResult.resp { status := 200, errorBody := eb, bodyResult := br }) = true) ∧
    (∀ (c : ForgeClient) (eb : Option (Option String)) (br : ReadResult),
        c.health (FetchResult.resp { status := 503, errorBody := eb, bodyResult := br }) = false) ∧
    (∀ (c c' : ForgeClient) (cause : String) (eb : Option (Option String)) (br : ReadResult),
        c.health (FetchResult.err cause) =
          c'.health (FetchResult.resp { status := 503, errorBody := eb, bodyResult := br })) :=
  ⟨fun _ _ => rfl, fun _ _ => rfl, fun _ _ _ => rfl, fun _ _ _ => rfl,
    fun _ _ _ _ _ => rfl⟩

/-- C10: `pdfAttach` drops `mime_type`/`description` when the option is
absent or the empty string (JS truthiness), while `pdfBarcode` drops its
optional keys only when `undefined`, so an empty-string `foreground`,
`background`, or `pages` survives into the payload entry. -/
theorem attach_truthiness_barcode_undefined :
    (∀ (b : RenderRequestBuilder) (p d : String) (rel : Option EmbedRelationship),
        b.pdfAttach p d
            { mimeType := Option.some "", description := Option.some "", relationship := rel } =
          b.pdfAttach p d
            { mimeType := Option.none, description := Option.none, relationship := rel }) ∧
    (∀ p d : String,
        (mkAttachEntry p d { mimeType := Option.some "", description := Option.some "" }).mime_type
            = Option.none ∧
        (mkAttachEntry p d { mimeType := Option.some "", description := Option.some "" }).description
            = Option.none) ∧
    (∀ p d : String,
        (mkAttachEntry p d
            { mimeType := Option.some "text/csv", description := Option.some "notes" }).mime_type
            = Option.some "text/csv" ∧
        (mkAttachEntry p d
            { mimeType := Option.some "text/csv", description := Option.some "notes" }).description
            = Option.some "notes") ∧
    (∀ (t : BarcodeType) (d : String),
        (mkBarcodeEntry t d
            { foreground := Option.some "", background := Option.some "", pages := Option.some "" }).foreground
            = Option.some "" ∧
        (mkBarcodeEntry t d
            { foreground := Option.some "", background := Option.some "", pages := Option.some "" }).background
            = Option.some "" ∧
        (mkBarcodeEntry t d
            { foreground := Option.some "", background := Option.some "", pages := Option.some "" }).pages
            = Option.some "") ∧
    (∀ (b : RenderRequestBuilder) (t : BarcodeType) (d : String),
        (b.pdfBarcode t d { foreground := Option.some "" })._pdfBarcodes =
          b._pdfBarcodes ++ [{ type := t, data := d, foreground := Option.some "" }]) :=
  ⟨fun _ _ _ _ => rfl, fun _ _ => ⟨rfl, rfl⟩, fun _ _ => ⟨rfl, rfl⟩,
    fun _ _ => ⟨rfl, rfl, rfl⟩, fun _ _ _ => rfl⟩

theorem stripTrailingSlashes_append_slash (u : String) :
    stripTrailingSlashes (u ++ "/") = stripTrailingSlashes u := by
  simp [stripTrailingSlashes, String.data_append, List.dropWhile]

/-- C8: client construction strips trailing slashes from the base URL, so
`"http://localhost:3000/"` and `"http://localhost:3000"` give identical
request targets for every path (and in general a trailing slash never
changes the target). -/
theorem trailing_slash_same_request_target :
    (∀ (u : String) (t : Option JsNumber) (path : String),
        (ForgeClient.make (u ++ "/") t).doFetchUrl path =
          (ForgeClient.make u t).doFetchUrl path) ∧
    (∀ path : String,
        (ForgeClient.make "http://localhost:3000/" Option.none).doFetchUrl path =
          (ForgeClient.make "http://localhost:3000" Option.none).doFetchUrl path) := by
  constructor
  · intro u t path
    simp [ForgeClient.doFetchUrl, ForgeClient.make, stripTrailingSlashes_append_slash]
  · intro path
    have h : stripTrailingSlashes "http://localhost:3000/" =
        stripTrailingSlashes "http://localhost:3000" := by decide
    simp [ForgeClient.doFetchUrl, ForgeClient.make, h]

/-- C2: `send()` classifies every outcome: a rejected fetch yields a
connection error carrying the cause (never a server error); a non-success
status yields a server error with the numeric status and the message from a
parseable `{error: string}` body, or "HTTP <status>" when the body is
unparseable. -/
theorem send_outcome_classification :
    ∀ (b : RenderRequestBuilder) (net : RenderPayload → FetchResult),
      (∀ cause : String,
          net b.buildPayload = FetchResult.err cause →
            b.send net = SendOutcome.connectionError cause ∧
            (b.send net).isServerError = false) ∧
      (∀ (r : MockResponse) (m : String),
          net b.buildPayload = FetchResult.resp r → r.ok = false →
            r.errorBody = Option.some (Option.some m) →
            b.send net = SendOutcome.serverError r.status (Option.some m)) ∧
      (∀ r : MockResponse,
          net b.buildPayload = FetchResult.resp r → r.ok = false →
            r.errorBody = Option.none →
            b.send net = SendOutcome.serverError r.status
              (Option.some ("HTTP " ++ toString r.status))) := by
  intro b net
  refine ⟨?_, ?_, ?_⟩
  · intro cause h
    constructor <;>
      simp [RenderRequestBuilder.send, h, SendOutcome.isServerError]
  · intro r m hr hok he
    simp [RenderRequestBuilder.send, hr, hok, he]
  · intro r hr hok he
    simp [RenderRequestBuilder.send, hr, hok, he]

theorem send_outcome_classification_witness :
    mockBuilder.send netRefused = SendOutcome.connectionError "ECONNREFUSED" ∧
    mockBuilder.send net500boom = SendOutcome.serverError 500 (Option.some "boom") ∧
    mockBuilder.send net500garbled = SendOutcome.serverError 500 (Option.some "HTTP 500") := by
  refine ⟨?_, ?_, ?_⟩
  · exact ((send_outcome_classification mockBuilder netRefused).1 "ECONNREFUSED" rfl).1
  · exact (send_outcome_classification mockBuilder net500boom).2.1
      { status := 500, errorBody := Option.some (Option.some "boom"),
        bodyResult := ReadResult.bytes [] } "boom" rfl (by decide) rfl
  · have h := (send_outcome_classification mockBuilder net500garbled).2.2
      { status := 500, errorBody := Option.none, bodyResult := ReadResult.bytes [] }
      rfl (by decide) rfl
    rw [h]; decide

/-- C3 counterexample: a failing execution of `send()` that is neither of
the two typed failures — the server answers 200 but `resp.arrayBuffer()`
rejects while the body is read, and `send` lets that rejection propagate
unwrapped. -/
theorem send_untyped_failure_on_body_read :
    (mockBuilder.send netBodyDrop).isFailure = true ∧
    (mockBuilder.send netBodyDrop).isTypedFailure = false := by
  constructor <;> rfl

/-- C3 (amended): every failure raised by `send()` from the fetch itself or
from a non-success status is one of the two typed failures; the one
exception is a failure while reading the response body of a success-status
response, which propagates unwrapped. -/
theorem send_failures_typed_except_body_read :
    ∀ (b : RenderRequestBuilder) (net : RenderPayload → FetchResult),
      (∀ cause : String, net b.buildPayload = FetchResult.err cause →
          (b.send net).isTypedFailure = true) ∧
      (∀ r : MockResponse, net b.buildPayload = FetchResult.resp r → r.ok = false →
          (b.send net).isTypedFailure = true) ∧
      (∀ cause : String, b.send net = SendOutcome.unhandledError cause →
          ∃ r : MockResponse, net b.buildPayload = FetchResult.resp r ∧
            r.ok = true ∧ r.bodyResult = ReadResult.threw cause) := by
  intro b net
  refine ⟨?_, ?_, ?_⟩
  · intro cause h
    simp [RenderRequestBuilder.send, h, SendOutcome.isTypedFailure]
  · intro r h hok
    simp [RenderRequestBuilder.send, h, hok, SendOutcome.isTypedFailure]
  · intro cause h
    cases hn : net b.buildPayload with
    | err c =>
      simp only [RenderRequestBuilder.send, hn] at h
      exact SendOutcome.noConfusion h
    | resp r =>
      simp only [RenderRequestBuilder.send, hn] at h
      by_cases hok : r.ok = true
      · refine ⟨r, rfl, hok, ?_⟩
        cases hb : r.bodyResult with
        | bytes buf => rw [hb] at h; simp [hok] at h
        | threw c =>
          rw [hb] at h
          simp [hok] at h
          rw [h]
      · simp [Bool.not_eq_true] at hok
        simp [hok] at h

theorem send_failures_typed_except_body_read_witness :
    ∃ r : MockResponse, netBodyDrop mockBuilder.buildPayload = FetchResult.resp r ∧
      r.ok = true ∧ r.bodyResult = ReadResult.threw "stream reset" :=
  (send_failures_typed_except_body_read mockBuilder netBodyDrop).2.2 "stream reset" rfl

/- Lemmas about fluent call chains. -/

theorem applyCalls_cons (b : RenderRequestBuilder) (c : BuilderCall)
    (cs : List BuilderCall) :
    applyCalls b (c :: cs) = applyCalls (applyCall b c) cs := rfl

theorem applyCall_format_eq (b : RenderRequestBuilder) (c : BuilderCall) :
    (applyCall b c)._format =
      match c with
      | BuilderCall.format f => f
      | _ => b._format := by
  cases c <;> rfl

theorem applyCalls_format (cs : List BuilderCall) :
    ∀ b : RenderRequestBuilder,
      (applyCalls b cs)._format = (lastFormatArg cs).getD b._format := by
  induction cs with
  | nil => intro b; rfl
  | cons c cs ih =>
    intro b
    rw [applyCalls_cons, ih]
    cases h : lastFormatArg cs with
    | some f => simp [lastFormatArg, h]
    | none =>
      simp only [lastFormatArg, h, Option.getD]
      rw [applyCall_format_eq]
      cases c <;> rfl

theorem applyCall_pdfBarcodes (b : RenderRequestBuilder) (c : BuilderCall) :
    (applyCall b c)._pdfBarcodes =
      b._pdfBarcodes ++
        (match c with
         | BuilderCall.pdfBarcode t d opts => [mkBarcodeEntry t d opts]
         | _ => []) := by
  cases c <;>
    simp [applyCall, RenderRequestBuilder.format, RenderRequestBuilder.width,
      RenderRequestBuilder.height, RenderRequestBuilder.paper,
      RenderRequestBuilder.orientation, RenderRequestBuilder.margins,
      RenderRequestBuilder.flow, RenderRequestBuilder.density,
      RenderRequestBuilder.background, RenderRequestBuilder.timeout,
      RenderRequestBuilder.colors, RenderRequestBuilder.palette,
      RenderRequestBuilder.dither, RenderRequestBuilder.pdfTitle,
      RenderRequestBuilder.pdfAuthor, RenderRequestBuilder.pdfSubject,
      RenderRequestBuilder.pdfKeywords, RenderRequestBuilder.pdfCreator,
      RenderRequestBuilder.pdfBookmarks, RenderRequestBuilder.pdfPageNumbers,
      RenderRequestBuilder.pdfWatermarkText, RenderRequestBuilder.pdfWatermarkImage,
      RenderRequestBuilder.pdfWatermarkOpacity, RenderRequestBuilder.pdfWatermarkRotation,
      RenderRequestBuilder.pdfWatermarkColor, RenderRequestBuilder.pdfWatermarkFontSize,
      RenderRequestBuilder.pdfWatermarkScale, RenderRequestBuilder.pdfWatermarkLayer,
      RenderRequestBuilder.pdfStandard, RenderRequestBuilder.pdfAttach,
      RenderRequestBuilder.pdfWatermarkPages, RenderRequestBuilder.pdfBarcode,
      RenderRequestBuilder.pdfMode, RenderRequestBuilder.pdfSignCertificate,
      RenderRequestBuilder.pdfSignPassword, RenderRequestBuilder.pdfSignName,
      RenderRequestBuilder.pdfSignReason, RenderRequestBuilder.pdfSignLocation,
      RenderRequestBuilder.pdfSignTimestampUrl, RenderRequestBuilder.pdfUserPassword,
      RenderRequestBuilder.pdfOwnerPassword, RenderRequestBuilder.pdfPermissions,
      RenderRequestBuilder.pdfAccessibility, RenderRequestBuilder.pdfLinearize,
      RenderRequestBuilder.pdfLang]

theorem applyCall_pdfEmbeddedFiles (b : RenderRequestBuilder) (c : BuilderCall) :
    (applyCall b c)._pdfEmbeddedFiles =
      b._pdfEmbeddedFiles ++
        (match c with
         | BuilderCall.pdfAttach path data options => [mkAttachEntry path data options]
         | _ => []) := by
  cases c <;>
    simp [applyCall, RenderRequestBuilder.format, RenderRequestBuilder.width,
      RenderRequestBuilder.height, RenderRequestBuilder.paper,
      RenderRequestBuilder.orientation, RenderRequestBuilder.margins,
      RenderRequestBuilder.flow, RenderRequestBuilder.density,
      RenderRequestBuilder.background, RenderRequestBuilder.timeout,
      RenderRequestBuilder.colors, RenderRequestBuilder.palette,
      RenderRequestBuilder.dither, RenderRequestBuilder.pdfTitle,
      RenderRequestBuilder.pdfAuthor, RenderRequestBuilder.pdfSubject,
      RenderRequestBuilder.pdfKeywords, RenderRequestBuilder.pdfCreator,
      RenderRequestBuilder.pdfBookmarks, RenderRequestBuilder.pdfPageNumbers,
      RenderRequestBuilder.pdfWatermarkText, RenderRequestBuilder.pdfWatermarkImage,
      RenderRequestBuilder.pdfWatermarkOpacity, RenderRequestBuilder.pdfWatermarkRotation,
      RenderRequestBuilder.pdfWatermarkColor, RenderRequestBuilder.pdfWatermarkFontSize,
      RenderRequestBuilder.pdfWatermarkScale, RenderRequestBuilder.pdfWatermarkLayer,
      RenderRequestBuilder.pdfStandard, RenderRequestBuilder.pdfAttach,
      RenderRequestBuilder.pdfWatermarkPages, RenderRequestBuilder.pdfBarcode,
      RenderRequestBuilder.pdfMode, RenderRequestBuilder.pdfSignCertificate,
      RenderRequestBuilder.pdfSignPassword, RenderRequestBuilder.pdfSignName,
      RenderRequestBuilder.pdfSignReason, RenderRequestBuilder.pdfSignLocation,
      RenderRequestBuilder.pdfSignTimestampUrl, RenderRequestBuilder.pdfUserPassword,
      RenderRequestBuilder.pdfOwnerPassword, RenderRequestBuilder.pdfPermissions,
      RenderRequestBuilder.pdfAccessibility, RenderRequestBuilder.pdfLinearize,
      RenderRequestBuilder.pdfLang]

theorem applyCalls_pdfBarcodes (cs : List BuilderCall) :
    ∀ b : RenderRequestBuilder,
      (applyCalls b cs)._pdfBarcodes = b._pdfBarcodes ++ barcodeCallEntries cs := by
  induction cs with
  | nil => intro b; simp [applyCalls, barcodeCallEntries]
  | cons c cs ih =>
    intro b
    rw [applyCalls_cons, ih, applyCall_pdfBarcodes]
    cases c <;> simp [barcodeCallEntries]

theorem applyCalls_pdfEmbeddedFiles (cs : List BuilderCall) :
    ∀ b : RenderRequestBuilder,
      (applyCalls b cs)._pdfEmbeddedFiles =
        b._pdfEmbeddedFiles ++ attachCallEntries cs := by
  induction cs with
  | nil => intro b; simp [applyCalls, attachCallEntries]
  | cons c cs ih =>
    intro b
    rw [applyCalls_cons, ih, applyCall_pdfEmbeddedFiles]
    cases c <;> simp [attachCallEntries]

theorem barcodeCallEntries_length (cs : List BuilderCall) :
    (barcodeCallEntries cs).length = countBarcodeCalls cs := by
  induction cs with
  | nil => rfl
  | cons c cs ih => cases c <;> simp [barcodeCallEntries, countBarcodeCalls, ih]

theorem attachCallEntries_length (cs : List BuilderCall) :
    (attachCallEntries cs).length = countAttachCalls cs := by
  induction cs with
  | nil => rfl
  | cons c cs ih => cases c <;> simp [attachCallEntries, countAttachCalls, ih]

theorem buildPayload_barcodes_key (b : RenderRequestBuilder) :
    (b.buildPayload).pdf.bind PdfPayload.barcodes =
      if b._pdfBarcodes = [] then Option.none else Option.some b._pdfBarcodes := by
  rw [buildPayload_pdf]
  by_cases hb : b._pdfBarcodes = []
  · cases h : hasPdfState b <;> simp [h, pdfGroupOf, hb]
  · have hlen : 0 < b._pdfBarcodes.length := List.length_pos.mpr hb
    have hp : hasPdfState b = true := by simp [hasPdfState, hlen]
    simp [hp, pdfGroupOf, hb, hlen]

theorem buildPayload_embedded_key (b : RenderRequestBuilder) :
    (b.buildPayload).pdf.bind PdfPayload.embedded_files =
      if b._pdfEmbeddedFiles = [] then Option.none
      else Option.some b._pdfEmbeddedFiles := by
  rw [buildPayload_pdf]
  by_cases hb : b._pdfEmbeddedFiles = []
  · cases h : hasPdfState b <;> simp [h, pdfGroupOf, hb]
  · have hlen : 0 < b._pdfEmbeddedFiles.length := List.length_pos.mpr hb
    have hp : hasPdfState b = true := by simp [hasPdfState, hlen]
    simp [hp, pdfGroupOf, hb, hlen]

/-- C6: a chain of `pdfBarcode`/`pdfAttach` calls accumulates exactly the
added entries in call order (n calls give an array of length n), and each of
the `barcodes`/`embedded_files` keys is emitted iff its array is non-empty. -/
theorem barcode_attach_accumulate_in_order :
    ∀ (client : ForgeClient) (src : BuilderSource) (cs : List BuilderCall),
      ((applyCalls (RenderRequestBuilder.mkNew client src) cs)._pdfBarcodes
          = barcodeCallEntries cs) ∧
      ((applyCalls (RenderRequestBuilder.mkNew client src) cs)._pdfEmbeddedFiles
          = attachCallEntries cs) ∧
      ((barcodeCallEntries cs).length = countBarcodeCalls cs) ∧
      ((attachCallEntries cs).length = countAttachCalls cs) ∧
      (((applyCalls (RenderRequestBuilder.mkNew client src) cs).buildPayload).pdf.bind
          PdfPayload.barcodes =
        if barcodeCallEntries cs = [] then Option.none
        else Option.some (barcodeCallEntries cs)) ∧
      (((applyCalls (RenderRequestBuilder.mkNew client src) cs).buildPayload).pdf.bind
          PdfPayload.embedded_files =
        if attachCallEntries cs = [] then Option.none
        else Option.some (attachCallEntries cs)) := by
  intro client src cs
  have hb := applyCalls_pdfBarcodes cs (RenderRequestBuilder.mkNew client src)
  have ha := applyCalls_pdfEmbeddedFiles cs (RenderRequestBuilder.mkNew client src)
  rw [show (RenderRequestBuilder.mkNew client src)._pdfBarcodes = [] from rfl,
    List.nil_append] at hb
  rw [show (RenderRequestBuilder.mkNew client src)._pdfEmbeddedFiles = [] from rfl,
    List.nil_append] at ha
  refine ⟨hb, ha, barcodeCallEntries_length cs, attachCallEntries_length cs, ?_, ?_⟩
  · rw [buildPayload_barcodes_key, hb]
  · rw [buildPayload_embedded_key, ha]

/-- C5: after any fluent call chain on a fresh builder, the payload's
`format` is "pdf" when `format(...)` was never called and otherwise the
argument of the last `format(...)` call; and every scalar setter is
last-write-wins: calling it twice equals calling it once with the last
value. -/
theorem format_default_and_last_write_wins :
    (∀ (client : ForgeClient) (src : BuilderSource) (cs : List BuilderCall),
        ((applyCalls (RenderRequestBuilder.mkNew client src) cs).buildPayload).format
          = (lastFormatArg cs).getD OutputFormat.pdf) ∧
    (∀ (b : RenderRequestBuilder) (v w : OutputFormat), (b.format v).format w = b.format w) ∧
    (∀ (b : RenderRequestBuilder) (v w : JsNumber), (b.width v).width w = b.width w) ∧
    (∀ (b : RenderRequestBuilder) (v w : JsNumber), (b.height v).height w = b.height w) ∧
    (∀ (b : RenderRequestBuilder) (v w : String), (b.paper v).paper w = b.paper w) ∧
    (∀ (b : RenderRequestBuilder) (v w : Orientation),
        (b.orientation v).orientation w = b.orientation w) ∧
    (∀ (b : RenderRequestBuilder) (v w : String), (b.margins v).margins w = b.margins w) ∧
    (∀ (b : RenderRequestBuilder) (v w : Flow), (b.flow v).flow w = b.flow w) ∧
    (∀ (b : RenderRequestBuilder) (v w : JsNumber), (b.density v).density w = b.density w) ∧
    (∀ (b : RenderRequestBuilder) (v w : String),
        (b.background v).background w = b.background w) ∧
    (∀ (b : RenderRequestBuilder) (v w : JsNumber), (b.timeout v).timeout w = b.timeout w) ∧
    (∀ (b : RenderRequestBuilder) (v w : JsNumber), (b.colors v).colors w = b.colors w) ∧
    (∀ (b : RenderRequestBuilder) (v w : Palette), (b.palette v).palette w = b.palette w) ∧
    (∀ (b : RenderRequestBuilder) (v w : DitherMethod), (b.dither v).dither w = b.dither w) ∧
    (∀ (b : RenderRequestBuilder) (v w : String), (b.pdfTitle v).pdfTitle w = b.pdfTitle w) ∧
    (∀ (b : RenderRequestBuilder) (v w : String),
        (b.pdfAuthor v).pdfAuthor w = b.pdfAuthor w) ∧
    (∀ (b : RenderRequestBuilder) (v w : String),
        (b.pdfSubject v).pdfSubject w = b.pdfSubject w) ∧
    (∀ (b : RenderRequestBuilder) (v w : String),
        (b.pdfKeywords v).pdfKeywords w = b.pdfKeywords w) ∧
    (∀ (b : RenderRequestBuilder) (v w : String),
        (b.pdfCreator v).pdfCreator w = b.pdfCreator w) ∧
    (∀ (b : RenderRequestBuilder) (v w : Bool),
        (b.pdfBookmarks v).pdfBookmarks w = b.pdfBookmarks w) ∧
    (∀ (b : RenderRequestBuilder) (v w : Bool),
        (b.pdfPageNumbers v).pdfPageNumbers w = b.pdfPageNumbers w) ∧
    (∀ (b : RenderRequestBuilder) (v w : String),
        (b.pdfWatermarkText v).pdfWatermarkText w = b.pdfWatermarkText w) ∧
    (∀ (b : RenderRequestBuilder) (v w : String),
        (b.pdfWatermarkImage v).pdfWatermarkImage w = b.pdfWatermarkImage w) ∧
    (∀ (b : RenderRequestBuilder) (v w : JsNumber),
        (b.pdfWatermarkOpacity v).pdfWatermarkOpacity w = b.pdfWatermarkOpacity w) ∧
    (∀ (b : RenderRequestBuilder) (v w : JsNumber),
        (b.pdfWatermarkRotation v).pdfWatermarkRotation w = b.pdfWatermarkRotation w) ∧
    (∀ (b : RenderRequestBuilder) (v w : String),
        (b.pdfWatermarkColor v).pdfWatermarkColor w = b.pdfWatermarkColor w) ∧
    (∀ (b : RenderRequestBuilder) (v w : JsNumber),
        (b.pdfWatermarkFontSize v).pdfWatermarkFontSize w = b.pdfWatermarkFontSize w) ∧
    (∀ (b : RenderRequestBuilder) (v w : JsNumber),
        (b.pdfWatermarkScale v).pdfWatermarkScale w = b.pdfWatermarkScale w) ∧
    (∀ (b : RenderRequestBuilder) (v w : WatermarkLayer),
        (b.pdfWatermarkLayer v).pdfWatermarkLayer w = b.pdfWatermarkLayer w) ∧
    (∀ (b : RenderRequestBuilder) (v w : PdfStandard),
        (b.pdfStandard v).pdfStandard w = b.pdfStandard w) ∧
    (∀ (b : RenderRequestBuilder) (v w : String),
        (b.pdfWatermarkPages v).pdfWatermarkPages w = b.pdfWatermarkPages w) ∧
    (∀ (b : RenderRequestBuilder) (v w : PdfMode), (b.pdfMode v).pdfMode w = b.pdfMode w) ∧
    (∀ (b : RenderRequestBuilder) (v w : String),
        (b.pdfSignCertificate v).pdfSignCertificate w = b.pdfSignCertificate w) ∧
    (∀ (b : RenderRequestBuilder) (v w : String),
        (b.pdfSignPassword v).pdfSignPassword w = b.pdfSignPassword w) ∧
    (∀ (b : RenderRequestBuilder) (v w : String),
        (b.pdfSignName v).pdfSignName w = b.pdfSignName w) ∧
    (∀ (b : RenderRequestBuilder) (v w : String),
        (b.pdfSignReason v).pdfSignReason w = b.pdfSignReason w) ∧
    (∀ (b : RenderRequestBuilder) (v w : String),
        (b.pdfSignLocation v).pdfSignLocation w = b.pdfSignLocation w) ∧
    (∀ (b : RenderRequestBuilder) (v w : String),
        (b.pdfSignTimestampUrl v).pdfSignTimestampUrl w = b.pdfSignTimestampUrl w) ∧
    (∀ (b : RenderRequestBuilder) (v w : String),
        (b.pdfUserPassword v).pdfUserPassword w = b.pdfUserPassword w) ∧
    (∀ (b : RenderRequestBuilder) (v w : String),
        (b.pdfOwnerPassword v).pdfOwnerPassword w = b.pdfOwnerPassword w) ∧
    (∀ (b : RenderRequestBuilder) (v w : String),
        (b.pdfPermissions v).pdfPermissions w = b.pdfPermissions w) ∧
    (∀ (b : RenderRequestBuilder) (v w : AccessibilityLevel),
        (b.pdfAccessibility v).pdfAccessibility w = b.pdfAccessibility w) ∧
    (∀ (b : RenderRequestBuilder) (v w : Bool),
        (b.pdfLinearize v).pdfLinearize w = b.pdfLinearize w) ∧
    (∀ (b : RenderRequestBuilder) (v w : String),
        (b.pdfLang v).pdfLang w = b.pdfLang w) := by
  refine ⟨?_, ?_, ?_, ?_, ?_, ?_, ?_, ?_, ?_, ?_, ?_, ?_, ?_, ?_, ?_, ?_, ?_,
    ?_, ?_, ?_, ?_, ?_, ?_, ?_, ?_, ?_, ?_, ?_, ?_, ?_, ?_, ?_, ?_, ?_, ?_,
    ?_, ?_, ?_, ?_, ?_, ?_, ?_, ?_, ?_⟩
  · intro client src cs
    rw [buildPayload_format, applyCalls_format,
      show (RenderRequestBuilder.mkNew client src)._format = OutputFormat.pdf from rfl]
  all_goals exact fun _ _ _ => rfl

end Forge
